import Mathlib

/-!
Verification of the AgeKey SDK (`@agekey/sdk`) protocol core against its
natural-language specification.

The TypeScript sources are shallowly embedded below.  JavaScript strings are
modelled by Lean `String` (characters standing for UTF-16 code units), the
platform collaborators (`atob`/`Buffer` base64 decoding, `JSON.parse`, `fetch`,
the CSPRNG and the clock) are passed in as explicit fallible arguments, JSON
values are the inductive `Json` with integer numerics, and thrown exceptions
become `Except` error results.  Each definition mirrors one function of the
repository and is named after it.
-/

/-! ## JavaScript string primitives

Small total models of the JavaScript string operations the SDK uses.  All are
structurally recursive so that concrete witnesses evaluate inside the kernel.
-/

/-- Model of `String.prototype.startsWith`: `leadsWith p l` is true when the
list `l` begins with the pattern `p`. -/
def leadsWith : List Char → List Char → Bool
  | [], _ => true
  | _ :: _, [] => false
  | p :: ps, c :: cs => p == c && leadsWith ps cs

/-- `jsStartsWith s p` models `s.startsWith(p)` for JavaScript strings. -/
def jsStartsWith (s p : String) : Bool :=
  leadsWith p.data s.data

/-- Splitting a character list at every occurrence of the separator `sep`,
modelling `String.prototype.split` with a one-character separator. -/
def splitChar (sep : Char) : List Char → List (List Char)
  | [] => [[]]
  | c :: cs =>
    if c = sep then
      [] :: splitChar sep cs
    else
      match splitChar sep cs with
      | [] => [[c]]
      | piece :: rest => (c :: piece) :: rest

/-- `jsSplit s sep` models `s.split(sep)` for a one-character separator. -/
def jsSplit (s : String) (sep : Char) : List String :=
  (splitChar sep s.data).map String.mk

/-- Model of `String.prototype.replace` with a global one-character pattern
and a one-character replacement, as in the base64url translation of
`decodeJwtPayload` (a global regex replace of `-` by `+` and of `_` by `/`). -/
def jsReplaceChar (s : String) (pat repl : Char) : String :=
  String.mk (s.data.map fun c => if c = pat then repl else c)

/-- Whether the pattern occurs in the list, helper for `String.includes`. -/
def hasSubList (pat : List Char) : List Char → Bool
  | [] => leadsWith pat []
  | c :: cs => leadsWith pat (c :: cs) || hasSubList pat cs

/-- `jsIncludes s pat` models `s.includes(pat)`. -/
def jsIncludes (s pat : String) : Bool :=
  hasSubList pat.data s.data

/-- JavaScript truthiness of a possibly-absent string: `undefined`, `null`
and the empty string are falsy. -/
def jsTruthy : Option String → Bool
  | none => false
  | some s => !(s == "")

/-- Model of the JavaScript idiom `x || d` on an optional string: the default
is taken when `x` is absent or empty (both falsy). -/
def jsOrD (x : Option String) (d : String) : String :=
  match x with
  | some s => if s == "" then d else s
  | none => d

/-- Model of the idiom `params.get(n) || undefined`: an empty string collapses
to an absent value. -/
def optFalsy : Option String → Option String
  | some s => if s == "" then none else some s
  | none => none

/-! ## URL query parsing

The SDK reads callbacks with `new URL(callbackUrl).searchParams`.  We model
the WHATWG query parsing it relies on: the query is the part of the URL after
the first `?` (and before any `#`), pieces are separated by `&`, each piece
splits at its first `=`, and keys and values are form-url-decoded (`+`
becomes a space, `%hh` a character).  `get` returns the first match. -/

/-- Numeric value of a hexadecimal digit character, if it is one. -/
def hexVal (c : Char) : Option Nat :=
  if '0' ≤ c ∧ c ≤ '9' then some (c.toNat - 48)
  else if 'A' ≤ c ∧ c ≤ 'F' then some (c.toNat - 55)
  else if 'a' ≤ c ∧ c ≤ 'f' then some (c.toNat - 97 + 10)
  else none

/-- Form-url-decoding of a character list: `+` decodes to a space and a valid
`%hh` escape to the character it denotes; malformed escapes stay literal. -/
def formUrlDecodeList : List Char → List Char
  | [] => []
  | '+' :: rest => ' ' :: formUrlDecodeList rest
  | '%' :: h1 :: h2 :: rest2 =>
    match hexVal h1, hexVal h2 with
    | some a, some b => Char.ofNat (16 * a + b) :: formUrlDecodeList rest2
    | _, _ => '%' :: formUrlDecodeList (h1 :: h2 :: rest2)
  | '%' :: rest => '%' :: formUrlDecodeList rest
  | c :: rest => c :: formUrlDecodeList rest

/-- Form-url-decoding of a string. -/
def formUrlDecode (s : String) : String :=
  String.mk (formUrlDecodeList s.data)

/-- The raw query part of a URL: after the first `?`, before any `#`. -/
def queryPart (url : String) : List Char :=
  ((url.data.takeWhile fun c => c ≠ '#').dropWhile fun c => c ≠ '?').drop 1

/-- One `key=value` piece of a query, split at the first `=` and decoded. -/
def parsePiece (piece : List Char) : String × String :=
  (formUrlDecode (String.mk (piece.takeWhile fun c => c ≠ '=')),
   formUrlDecode (String.mk ((piece.dropWhile fun c => c ≠ '=').drop 1)))

/-- The decoded query parameters of a URL, in order of appearance. -/
def parseQuery (url : String) : List (String × String) :=
  ((splitChar '&' (queryPart url)).filter fun piece => piece ≠ []).map parsePiece

/-- Model of `URLSearchParams.get`: the first value bound to the name, or
absent. -/
def paramsGet (params : List (String × String)) (name : String) : Option String :=
  (params.find? fun p => p.1 == name).map Prod.snd

/-- A query parameter read through JavaScript truthiness: an absent entry and
an empty value are both rejected, as in `if (params.get("error"))`. -/
def getTruthy (params : List (String × String)) (name : String) : Option String :=
  match paramsGet params name with
  | some s => if s == "" then none else some s
  | none => none

/-! ## JSON values

JSON as consumed by the SDK.  Numbers are modelled as integers (every numeric
claim the SDK inspects is an integer; IEEE-754 fractions are out of scope). -/

/-- A JSON value. -/
inductive Json where
  | null : Json
  | bool (b : Bool) : Json
  | num (n : Int) : Json
  | str (s : String) : Json
  | arr (elems : List Json) : Json
  | obj (fields : List (String × Json)) : Json

/-- Property access `payload[k]` on a decoded JSON object; `none` models
JavaScript `undefined` (also for non-object values). -/
def jsonLookup (j : Json) (k : String) : Option Json :=
  match j with
  | .obj fields => (fields.find? fun f => f.1 == k).map Prod.snd
  | _ => none

/-! ## src/utils/state.ts -/

/-- `validateState` from `src/utils/state.ts`: constant-time comparison of the
received and expected state.  `!received || !expected` rejects empty strings,
unequal lengths are rejected, and otherwise the bitwise OR of the per-position
character-code XORs must vanish.  (`charCodeAt` is modelled by `Char.toNat`.) -/
def validateState (received expected : String) : Bool :=
  if received == "" || expected == "" then
    false
  else if received.length != expected.length then
    false
  else
    ((List.zipWith (fun a b => a.toNat ^^^ b.toNat) received.data expected.data).foldl
      (fun acc x => acc ||| x) 0) == 0

/-! ## src/utils/jwt.ts

`decodeJwtPayload` delegates base64 decoding to the platform (`atob` /
`Buffer`) and JSON parsing to `JSON.parse`; both are passed in here as
fallible collaborators (`none` models a thrown decoding/parsing error, caught
by the function's `try`/`catch`). -/

/-- `decodeJwtPayload` from `src/utils/jwt.ts`: split the token at the dots,
require exactly three segments and a non-empty middle segment, translate
base64url to base64 and decode, then parse as JSON; every failure yields
`none` (the function never throws). -/
def decodeJwtPayload (atob : String → Option String)
    (jsonParse : String → Option Json) (token : String) : Option Json :=
  let parts := jsSplit token '.'
  if parts.length != 3 then
    none
  else
    let payload := parts[1]!
    if payload == "" then
      none
    else
      let base64 := jsReplaceChar (jsReplaceChar payload '-' '+') '_' '/'
      match atob base64 with
      | none => none
      | some jsonPayload =>
        match jsonParse jsonPayload with
        | none => none
        | some j => some j

/-- `extractAgeThresholds`: the `age_thresholds` claim when it is an object
(JavaScript `typeof x === "object" && x !== null`, which also accepts arrays). -/
def extractAgeThresholds (payload : Json) : Option Json :=
  match jsonLookup payload "age_thresholds" with
  | some (.obj fields) => some (.obj fields)
  | some (.arr elems) => some (.arr elems)
  | _ => none

/-- `extractSubject`: the `sub` claim when it is a string. -/
def extractSubject (payload : Json) : Option String :=
  match jsonLookup payload "sub" with
  | some (.str s) => some s
  | _ => none

/-- `extractNonce`: the `nonce` claim when it is a string. -/
def extractNonce (payload : Json) : Option String :=
  match jsonLookup payload "nonce" with
  | some (.str s) => some s
  | _ => none

/-- `isTokenExpired` from `src/utils/jwt.ts`: a missing or non-numeric `exp`
claim counts as expired; otherwise the token is expired when the current time
in seconds (`now`) is at least `exp`. -/
def isTokenExpired (now : Int) (payload : Json) : Bool :=
  match jsonLookup payload "exp" with
  | some (.num exp) => decide (exp ≤ now)
  | _ => true

/-! ## src/errors.ts

Thrown error classes become values.  Each carries the subclass name (the
JavaScript `Error.name` the subclass constructor assigns), the machine-readable
code, the message, the optional OIDC error description (only `AccessDeniedError`
stores one) and the optional documentation URL. -/

/-- `AgeKeyErrorCode` from `src/types.ts`. -/
inductive AgeKeyErrorCode where
  | invalid_request
  | unauthorized_client
  | access_denied
  | unsupported_response_type
  | invalid_scope
  | server_error
  | temporarily_unavailable
  | state_mismatch
  | nonce_mismatch
  | invalid_token
  | network_error
deriving DecidableEq

/-- An SDK error value: the observable data of a thrown `AgeKeyError`. -/
structure AgeKeyError where
  name : String
  code : AgeKeyErrorCode
  message : String
  errorDescription : Option String := none
  docsUrl : Option String := none
deriving DecidableEq

/-- `StateMismatchError` (default message abridged to its first sentence;
no claim depends on the text). -/
def StateMismatchError (message : Option String) : AgeKeyError :=
  { name := "StateMismatchError", code := .state_mismatch,
    message := jsOrD message "State parameter mismatch.",
    docsUrl := some "https://docs.agekey.org/troubleshooting#state-mismatch" }

/-- `NonceMismatchError` (default message abridged to its first sentence). -/
def NonceMismatchError (message : Option String) : AgeKeyError :=
  { name := "NonceMismatchError", code := .nonce_mismatch,
    message := jsOrD message "Nonce mismatch.",
    docsUrl := some "https://docs.agekey.org/troubleshooting#nonce-mismatch" }

/-- `AccessDeniedError`: the message defaults from the description, and the
description is also stored on the error. -/
def AccessDeniedError (errorDescription : Option String) : AgeKeyError :=
  { name := "AccessDeniedError", code := .access_denied,
    message := jsOrD errorDescription
      "User denied the age verification request or closed the dialog.",
    errorDescription := errorDescription,
    docsUrl := some "https://docs.agekey.org/guides/handling-denials" }

/-- `InvalidTokenError`. -/
def InvalidTokenError (message : Option String) : AgeKeyError :=
  { name := "InvalidTokenError", code := .invalid_token,
    message := jsOrD message "Invalid or malformed ID token received.",
    docsUrl := some "https://docs.agekey.org/guides/jwt-validation" }

/-- `InvalidRequestError` (its message argument is mandatory in the source). -/
def InvalidRequestError (message : String) : AgeKeyError :=
  { name := "InvalidRequestError", code := .invalid_request,
    message := message,
    docsUrl := some "https://docs.agekey.org/api-reference" }

/-- `UnauthorizedClientError`. -/
def UnauthorizedClientError (message : Option String) : AgeKeyError :=
  { name := "UnauthorizedClientError", code := .unauthorized_client,
    message := jsOrD message
      "Client is not authorized to perform this request. Check your credentials.",
    docsUrl := some "https://docs.agekey.org/troubleshooting#unauthorized-client" }

/-- `ServerError`. -/
def ServerError (message : Option String) : AgeKeyError :=
  { name := "ServerError", code := .server_error,
    message := jsOrD message "AgeKey server error. Please try again later.",
    docsUrl := some "https://docs.agekey.org/troubleshooting#server-errors" }

/-- `mapOidcError` from `src/errors.ts`: classify an OIDC error code into the
matching error class; unknown codes become a base `AgeKeyError` (whose `name`
stays `"AgeKeyError"`) with code `invalid_request`. -/
def mapOidcError (error : String) (errorDescription : Option String) : AgeKeyError :=
  let message := jsOrD errorDescription ("OIDC error: " ++ error)
  if error == "access_denied" then AccessDeniedError errorDescription
  else if error == "invalid_request" then InvalidRequestError message
  else if error == "unauthorized_client" then UnauthorizedClientError (some message)
  else if error == "server_error" then ServerError (some message)
  else if error == "temporarily_unavailable" then
    ServerError (some ("Service temporarily unavailable. " ++ message))
  else { name := "AgeKeyError", code := .invalid_request, message := message }

/-! ## src/constants.ts -/

/-- One environment's endpoint set from `AGEKEY_ENDPOINTS`. -/
structure EndpointSet where
  base : String
  use : String
  create : String
  par : String
  jwks : String
deriving DecidableEq

/-- `AGEKEY_ENDPOINTS.test`. -/
def AGEKEY_ENDPOINTS_test : EndpointSet :=
  { base := "https://api.test.agekey.org",
    use := "https://api.test.agekey.org/v1/oidc/use",
    create := "https://api.test.agekey.org/v1/oidc/create",
    par := "https://api.test.agekey.org/v1/oidc/create/par",
    jwks := "https://api.test.agekey.org/.well-known/jwks.json" }

/-- `AGEKEY_ENDPOINTS.live`. -/
def AGEKEY_ENDPOINTS_live : EndpointSet :=
  { base := "https://api.agekey.org",
    use := "https://api.agekey.org/v1/oidc/use",
    create := "https://api.agekey.org/v1/oidc/create",
    par := "https://api.agekey.org/v1/oidc/create/par",
    jwks := "https://api.agekey.org/.well-known/jwks.json" }

/-- `CREDENTIAL_PREFIXES.testClientId`. -/
def prefixTestClientId : String := "ak_test_"

/-- `CREDENTIAL_PREFIXES.liveClientId`. -/
def prefixLiveClientId : String := "ak_live_"

/-- `CREDENTIAL_PREFIXES.testSecret`. -/
def prefixTestSecret : String := "sk_test_"

/-- `CREDENTIAL_PREFIXES.liveSecret`. -/
def prefixLiveSecret : String := "sk_live_"

/-- `DEFAULTS.parExpiry`: default PAR `request_uri` expiry in seconds. -/
def DEFAULTS_parExpiry : Int := 90

/-- `SCOPES.openid`. -/
def SCOPES_openid : String := "openid"

/-- `SCOPES.upgrade`. -/
def SCOPES_upgrade : String := "openid agekey.upgrade"

/-- `RESPONSE_TYPES.idToken`. -/
def RESPONSE_TYPES_idToken : String := "id_token"

/-- `RESPONSE_TYPES.none`. -/
def RESPONSE_TYPES_none : String := "none"

/-! ## src/utils/environment.ts -/

/-- `Environment` from `src/types.ts`: the resolved endpoint configuration. -/
structure Environment where
  isTest : Bool
  baseUrl : String
  useEndpoint : String
  createEndpoint : String
  parEndpoint : String
deriving DecidableEq

/-- `isTestCredential`: only the `ak_test_` prefix indicates test mode. -/
def isTestCredential (clientId : String) : Bool :=
  jsStartsWith clientId prefixTestClientId

/-- `isTestSecret`: the `sk_test_` prefix indicates a test secret. -/
def isTestSecret (secret : String) : Bool :=
  jsStartsWith secret prefixTestSecret

/-- The source's check for a recognizable secret environment tag (named
`hasSecret`-`Prefix` there): `sk_test_` or `sk_live_`. -/
def hasSecretEnvTag (secret : String) : Bool :=
  jsStartsWith secret prefixTestSecret || jsStartsWith secret prefixLiveSecret

/-- `validateCredentialEnvironments`: untagged (legacy) secrets skip the
check; tagged credentials must agree on the environment, otherwise a plain
`Error` is thrown, modelled by the `Except.error` carrying its message. -/
def validateCredentialEnvironments (clientId clientSecret : String) :
    Except String Unit :=
  if !(hasSecretEnvTag clientSecret) then
    .ok ()
  else
    let clientIsTest := isTestCredential clientId
    let secretIsTest := isTestSecret clientSecret
    if clientIsTest != secretIsTest then
      .error ("Environment mismatch: clientId is " ++
        (if clientIsTest then "test" else "live") ++
        " but clientSecret is " ++
        (if secretIsTest then "test" else "live") ++
        ". Both must be from the same environment.")
    else
      .ok ()

/-- `getEnvironment`: resolve the endpoint set from the client id prefix; an
explicit base-URL override replaces all endpoints using the same suffixes. -/
def getEnvironment (clientId : String) (apiBaseUrlOverride : Option String) :
    Environment :=
  let isTest := isTestCredential clientId
  let endpoints := if isTest then AGEKEY_ENDPOINTS_test else AGEKEY_ENDPOINTS_live
  match apiBaseUrlOverride with
  | some overrideUrl =>
    { isTest := isTest,
      baseUrl := overrideUrl,
      useEndpoint := overrideUrl ++ "/v1/oidc/use",
      createEndpoint := overrideUrl ++ "/v1/oidc/create",
      parEndpoint := overrideUrl ++ "/v1/oidc/create/par" }
  | none =>
    { isTest := isTest,
      baseUrl := endpoints.base,
      useEndpoint := endpoints.use,
      createEndpoint := endpoints.create,
      parEndpoint := endpoints.par }

/-! ## Decimal rendering and the platform `Date`

`toISOString` of the platform `Date` is modelled over explicit UTC calendar
components.  Digit rendering is fuel-structural so the kernel can evaluate it.
-/

/-- The character of a decimal digit. -/
def digitChar (n : Nat) : Char := Char.ofNat (48 + n)

/-- Decimal digits of a number, most significant first (fuelled helper). -/
def natDigitsAux : Nat → Nat → List Char
  | 0, _ => []
  | fuel + 1, n =>
    if n < 10 then [digitChar n]
    else natDigitsAux fuel (n / 10) ++ [digitChar (n % 10)]

/-- Decimal digits of a number, most significant first. -/
def natDigits (n : Nat) : List Char := natDigitsAux (n + 1) n

/-- A number rendered in decimal, left-padded with zeros to a width. -/
def padTo (w n : Nat) : List Char :=
  List.replicate (w - (natDigits n).length) '0' ++ natDigits n

/-- A platform `Date` instant, abstracted to its UTC calendar components. -/
structure DateUTC where
  year : Nat
  month : Nat
  day : Nat
  hour : Nat := 0
  minute : Nat := 0
  second : Nat := 0
  millisecond : Nat := 0
deriving DecidableEq

/-- The date part of an ISO-8601 rendering: `YYYY-MM-DD`. -/
def isoDatePart (d : DateUTC) : String :=
  String.mk (padTo 4 d.year ++ ['-'] ++ padTo 2 d.month ++ ['-'] ++ padTo 2 d.day)

/-- The time part of an ISO-8601 rendering: `hh:mm:ss.mmmZ`. -/
def isoTimePart (d : DateUTC) : String :=
  String.mk (padTo 2 d.hour ++ ':' :: padTo 2 d.minute ++ ':' :: padTo 2 d.second
    ++ '.' :: padTo 3 d.millisecond ++ ['Z'])

/-- `Date.prototype.toISOString`: the full UTC instant rendering. -/
def toISOString (d : DateUTC) : String :=
  isoDatePart d ++ "T" ++ isoTimePart d

/-- Model of `s.split(sep)[0]` for a one-character separator: the prefix of
the string before its first occurrence of `sep`. -/
def splitHead (s : String) (sep : Char) : String :=
  String.mk (s.data.takeWhile fun c => c ≠ sep)

/-! ## Use-flow request types (src/types.ts) -/

/-- `MethodOverride` (also covering the runtime shape of
`FacialAgeEstimationOverride`, whose one-of constraint exists only in the
static type system): all fields optional at runtime. -/
structure MethodOverride where
  min_age : Option Int := none
  age_thresholds : Option (List Int) := none
  verified_after : Option String := none
  attributes : Option (List (String × Json)) := none

/-- The provenance filter of `UseAgeKeyOptions`. -/
structure ProvenanceFilter where
  allowed : Option (List String) := none
  denied : Option (List String) := none

/-- `UseAgeKeyOptions` from `src/types.ts`.  The overrides mapping keeps the
caller's key order (JavaScript object insertion order).  The unused
`customState` field is omitted: `getAuthorizationUrl` never reads it. -/
structure UseAgeKeyOptions where
  ageThresholds : List Int
  allowedMethods : Option (List String) := none
  verifiedAfter : Option DateUTC := none
  enableCreate : Bool := false
  overrides : Option (List (String × MethodOverride)) := none
  provenance : Option ProvenanceFilter := none

/-- `AgeKeyConfig` from `src/types.ts`. -/
structure AgeKeyConfig where
  clientId : String
  clientSecret : Option String := none
  redirectUri : String
  apiBaseUrl : Option String := none

/-- The state/nonce pair the caller persisted (`CallbackValidationParams`). -/
structure CallbackValidationParams where
  state : String
  nonce : String

/-- `AuthorizationUrlResult`. -/
structure AuthorizationUrlResult where
  url : String
  state : String
  nonce : String

/-- `UseAgeKeyResult`: the age-threshold results object, the optional subject
and the raw decoded payload. -/
structure UseAgeKeyResult where
  ageThresholds : Json
  subject : Option String
  raw : Json

/-- `CreateAgeKeyResult`. -/
structure CreateAgeKeyResult where
  success : Bool
  error : Option String := none
  errorDescription : Option String := none
deriving DecidableEq

/-! ## JSON serialization (`JSON.stringify`)

Property order is object insertion order; absent (`undefined`) properties are
not serialized at all.  String escaping covers quotes and backslashes (the
SDK never serializes control characters). -/

/-- Join strings with a separator. -/
def joinSep (sep : String) : List String → String
  | [] => ""
  | [s] => s
  | s :: rest => s ++ sep ++ joinSep sep rest

/-- A JSON string literal with quote and backslash escaping. -/
def quoteJsonString (s : String) : String :=
  "\"" ++ String.mk (s.data.flatMap fun c =>
    if c = '"' then ['\\', '"'] else if c = '\\' then ['\\', '\\'] else [c]) ++ "\""

/-- An integer rendered in decimal. -/
def intRender (n : Int) : String :=
  if n < 0 then "-" ++ String.mk (natDigits (-n).toNat)
  else String.mk (natDigits n.toNat)

/-- Fuelled `JSON.stringify` body (fuel bounds the nesting depth). -/
def renderJsonF : Nat → Json → String
  | 0, _ => ""
  | fuel + 1, j =>
    match j with
    | .null => "null"
    | .bool b => if b then "true" else "false"
    | .num n => intRender n
    | .str s => quoteJsonString s
    | .arr elems => "[" ++ joinSep "," (elems.map (renderJsonF fuel)) ++ "]"
    | .obj fields =>
      "\x7b" ++ joinSep "," (fields.map fun f =>
        quoteJsonString f.1 ++ ":" ++ renderJsonF fuel f.2) ++ "\x7d"

mutual

/-- Fuel bound dominating a JSON value's nesting depth. -/
def jsonFuel : Json → Nat
  | .null => 1
  | .bool _ => 1
  | .num _ => 1
  | .str _ => 1
  | .arr elems => jsonListFuel elems + 1
  | .obj fields => jsonFieldsFuel fields + 1

/-- Fuel bound for a list of JSON values. -/
def jsonListFuel : List Json → Nat
  | [] => 0
  | j :: js => jsonFuel j + jsonListFuel js

/-- Fuel bound for JSON object fields. -/
def jsonFieldsFuel : List (String × Json) → Nat
  | [] => 0
  | (_, j) :: fs => jsonFuel j + jsonFieldsFuel fs

end

/-- `JSON.stringify` of a JSON value (the fuel dominates the nesting depth). -/
def renderJson (j : Json) : String := renderJsonF (jsonFuel j) j

/-! ## URL query rendering (`URLSearchParams.toString`) -/

/-- An uppercase hexadecimal digit. -/
def hexDigitUpper (n : Nat) : Char :=
  if n < 10 then Char.ofNat (48 + n) else Char.ofNat (55 + n)

/-- `application/x-www-form-urlencoded` encoding of one character (ASCII
range; the SDK's fixed parameters are ASCII). -/
def urlEncodeChar (c : Char) : List Char :=
  if ('a' ≤ c ∧ c ≤ 'z') ∨ ('A' ≤ c ∧ c ≤ 'Z') ∨ ('0' ≤ c ∧ c ≤ '9') ∨
      c = '*' ∨ c = '-' ∨ c = '.' ∨ c = '_' then [c]
  else if c = ' ' then ['+']
  else ['%', hexDigitUpper (c.toNat / 16 % 16), hexDigitUpper (c.toNat % 16)]

/-- Form-url-encoding of a string. -/
def urlEncode (s : String) : String :=
  String.mk (s.data.flatMap urlEncodeChar)

/-- `URLSearchParams.toString`: `k=v` pairs joined by `&`, both sides
encoded. -/
def renderQuery (params : List (String × String)) : String :=
  joinSep "&" (params.map fun p => urlEncode p.1 ++ "=" ++ urlEncode p.2)

/-! ## src/use-agekey.ts -/

/-- Truthiness of `xs?.length` for an optional array: absent or empty is
falsy. -/
def jsTruthyLen : Option (List String) → Bool
  | none => false
  | some l => l.length != 0

/-- Serialization of one `MethodOverride` (absent fields omitted). -/
def methodOverrideJson (o : MethodOverride) : Json :=
  Json.obj
    ((match o.min_age with
      | some n => [("min_age", Json.num n)]
      | none => []) ++
     (match o.age_thresholds with
      | some l => [("age_thresholds", Json.arr (l.map Json.num))]
      | none => []) ++
     (match o.verified_after with
      | some s => [("verified_after", Json.str s)]
      | none => []) ++
     (match o.attributes with
      | some a => [("attributes", Json.obj a)]
      | none => []))

/-- Serialization of the overrides mapping, keys in insertion order. -/
def overridesJson (ov : List (String × MethodOverride)) : Json :=
  Json.obj (ov.map fun p => (p.1, methodOverrideJson p.2))

/-- Serialization of the provenance filter (absent pattern sets omitted). -/
def provenanceJson (p : ProvenanceFilter) : Json :=
  Json.obj
    ((match p.allowed with
      | some l => [("allowed", Json.arr (l.map Json.str))]
      | none => []) ++
     (match p.denied with
      | some l => [("denied", Json.arr (l.map Json.str))]
      | none => []))

/-- The claims object `UseAgeKeyClient.getAuthorizationUrl` builds and
serializes under the `claims` parameter: `age_thresholds` always (in input
order), then `allowed_methods` when supplied non-empty, `verified_after` when
supplied (as `toISOString().split("T")[0]`, the date-only prefix), `overrides`
when supplied with at least one key (passed through unvalidated), and
`provenance` when supplied with a non-empty allowed or denied set. -/
def buildUseClaims (options : UseAgeKeyOptions) : Json :=
  Json.obj
    ([("age_thresholds", Json.arr (options.ageThresholds.map Json.num))] ++
     (match options.allowedMethods with
      | some ms =>
        if ms.length > 0 then [("allowed_methods", Json.arr (ms.map Json.str))] else []
      | none => []) ++
     (match options.verifiedAfter with
      | some d => [("verified_after", Json.str (splitHead (toISOString d) 'T'))]
      | none => []) ++
     (match options.overrides with
      | some ov => if ov.length > 0 then [("overrides", overridesJson ov)] else []
      | none => []) ++
     (match options.provenance with
      | some p =>
        if jsTruthyLen p.allowed || jsTruthyLen p.denied then
          [("provenance", provenanceJson p)]
        else []
      | none => []))

namespace UseAgeKeyClient

/-- `UseAgeKeyClient.getAuthorizationUrl`: build the Use-flow authorization
URL.  The CSPRNG collaborator's fresh `state` and `nonce` are injected as
arguments; the function performs no validation and cannot fail. -/
def getAuthorizationUrl (environment : Environment) (config : AgeKeyConfig)
    (state nonce : String) (options : UseAgeKeyOptions) : AuthorizationUrlResult :=
  let claims := buildUseClaims options
  let baseParams : List (String × String) :=
    [("client_id", config.clientId),
     ("redirect_uri", config.redirectUri),
     ("response_type", RESPONSE_TYPES_idToken),
     ("scope", if options.enableCreate then SCOPES_upgrade else SCOPES_openid),
     ("state", state),
     ("nonce", nonce),
     ("claims", renderJson claims)]
  let params :=
    if options.enableCreate then baseParams ++ [("can_create", "true")] else baseParams
  { url := environment.useEndpoint ++ "?" ++ renderQuery params,
    state := state, nonce := nonce }

/-- `UseAgeKeyClient.handleCallback`: validate a Use-flow callback URL.  The
stages, in source order: OIDC error classification, state comparison, token
presence, token decoding, nonce comparison, expiration, and presence of the
`age_thresholds` claim.  `atob`/`jsonParse` are the token-decoding
collaborators and `now` the clock reading in seconds. -/
def handleCallback (atob : String → Option String)
    (jsonParse : String → Option Json) (now : Int) (callbackUrl : String)
    (validation : CallbackValidationParams) : Except AgeKeyError UseAgeKeyResult :=
  match getTruthy (parseQuery callbackUrl) "error" with
  | some error =>
    .error (mapOidcError error (optFalsy (paramsGet (parseQuery callbackUrl) "error_description")))
  | none =>
    match paramsGet (parseQuery callbackUrl) "state" with
    | none => .error (StateMismatchError none)
    | some receivedState =>
      if receivedState == "" then .error (StateMismatchError none)
      else if !(validateState receivedState validation.state) then
        .error (StateMismatchError none)
      else
        match paramsGet (parseQuery callbackUrl) "id_token" with
        | none => .error (InvalidTokenError (some "No ID token in callback"))
        | some idToken =>
          if idToken == "" then .error (InvalidTokenError (some "No ID token in callback"))
          else
            match decodeJwtPayload atob jsonParse idToken with
            | none => .error (InvalidTokenError (some "Failed to decode ID token"))
            | some payload =>
              match extractNonce payload with
              | none => .error (NonceMismatchError none)
              | some tokenNonce =>
                if tokenNonce == "" then .error (NonceMismatchError none)
                else if !(validateState tokenNonce validation.nonce) then
                  .error (NonceMismatchError none)
                else if isTokenExpired now payload then
                  .error (InvalidTokenError (some "ID token has expired"))
                else
                  match extractAgeThresholds payload with
                  | none => .error (InvalidTokenError (some "No age_thresholds in ID token"))
                  | some ageThresholds =>
                    .ok { ageThresholds := ageThresholds,
                          subject := extractSubject payload,
                          raw := payload }

end UseAgeKeyClient

/-! ## src/create-agekey.ts -/

/-- `PARResult`. -/
structure PARResult where
  requestUri : String
  expiresIn : Int
deriving DecidableEq

/-- The typed shape `pushAuthorizationRequest` reads from the PAR response
body (`response.json()`); absent JSON members are `none`. -/
structure ParResponseData where
  request_uri : Option String := none
  expires_in : Option Int := none
  error : Option String := none
  error_description : Option String := none
deriving DecidableEq

/-- The transport's reply: HTTP `ok` flag, status and parsed JSON body. -/
structure ParResponse where
  ok : Bool
  status : Nat
  data : ParResponseData
deriving DecidableEq

/-- What the `try` block of `pushAuthorizationRequest` can throw: a typed SDK
error, or a platform error (fetch rejection / `response.json()` failure),
identified by its JavaScript `Error.name` and message. -/
inductive CaughtError where
  | ak (e : AgeKeyError)
  | js (name message : String)
deriving DecidableEq

/-- A surfaced SDK error, optionally wrapping the caught original as its
`cause` (only `NetworkError` wraps). -/
structure SdkError extends AgeKeyError where
  cause : Option CaughtError := none
deriving DecidableEq

/-- `NetworkError`, which stores its message and the wrapped cause. -/
def NetworkError (message : Option String) (cause : Option CaughtError) : SdkError :=
  { name := "NetworkError", code := .network_error,
    message := jsOrD message "Network error during API request.",
    cause := cause }

/-- The outcome of `fetch` + `response.json()` as seen inside the `try`
block: a parsed response, or the platform error the awaited calls threw. -/
inductive FetchOutcome where
  | success (response : ParResponse)
  | failure (name message : String)

/-- Truthiness of the optional numeric `expires_in` (`0` is falsy). -/
def jsTruthyInt : Option Int → Bool
  | none => false
  | some n => !(n == 0)

namespace CreateAgeKeyClient

/-- The `try` block of `pushAuthorizationRequest`: classify error responses
(401 or `unauthorized_client` first, then any truthy OIDC `error` code via
`mapOidcError`, then a bare non-ok status), require a truthy `request_uri`,
and default a falsy `expires_in` to `DEFAULTS.parExpiry`. -/
def parTryBlock : FetchOutcome → Except CaughtError PARResult
  | .failure name message => .error (.js name message)
  | .success response =>
    let data := response.data
    if !response.ok || jsTruthy data.error then
      if response.status == 401 || data.error == some "unauthorized_client" then
        .error (.ak (UnauthorizedClientError data.error_description))
      else if jsTruthy data.error then
        .error (.ak (mapOidcError (data.error.getD "") data.error_description))
      else
        .error (.ak (ServerError (some ("PAR request failed: " ++
          String.mk (natDigits response.status)))))
    else if !(jsTruthy data.request_uri) then
      .error (.ak (ServerError (some "PAR response missing request_uri")))
    else
      .ok { requestUri := data.request_uri.getD "",
            expiresIn :=
              if jsTruthyInt data.expires_in then data.expires_in.getD 0
              else DEFAULTS_parExpiry }

/-- The `catch` block of `pushAuthorizationRequest`: re-throw errors whose
`name` contains `"AgeKey"`, wrap everything else into a `NetworkError`.  Note
that every subclass constructor overwrites `name` (for example to
`"ServerError"`), so only base `AgeKeyError` instances pass the check. -/
def parCatch : Except CaughtError PARResult → Except SdkError PARResult
  | .ok v => .ok v
  | .error caught =>
    match caught with
    | .ak e =>
      if jsIncludes e.name "AgeKey" then .error { toAgeKeyError := e, cause := none }
      else .error (NetworkError (some "Failed to connect to AgeKey PAR endpoint") (some caught))
    | .js _ _ =>
      .error (NetworkError (some "Failed to connect to AgeKey PAR endpoint") (some caught))

/-- `CreateAgeKeyClient.pushAuthorizationRequest`: require a truthy client
secret before anything else, then run the PAR exchange (the transport's reply
is the injected `fetchOutcome`) under the `try`/`catch` of the source. -/
def pushAuthorizationRequest (config : AgeKeyConfig) (fetchOutcome : FetchOutcome) :
    Except SdkError PARResult :=
  if !(jsTruthy config.clientSecret) then
    let e := InvalidRequestError ("Client secret is required for Create AgeKey flow. " ++
      "This method must be called server-side.")
    .error { toAgeKeyError := e, cause := none }
  else
    parCatch (parTryBlock fetchOutcome)

/-- `CreateAgeKeyClient.handleCallback`: a truthy `error` parameter yields a
failure result carrying the code and (falsy-collapsed) description; otherwise
success.  No token is involved (`response_type=none`), and nothing throws. -/
def handleCallback (callbackUrl : String) : CreateAgeKeyResult :=
  match getTruthy (parseQuery callbackUrl) "error" with
  | some error =>
    { success := false, error := some error,
      errorDescription := optFalsy (paramsGet (parseQuery callbackUrl) "error_description") }
  | none => { success := true }

end CreateAgeKeyClient

/-! ## src/client.ts (`AgeKey` constructor) -/

/-- A constructed `AgeKey` client: the stored configuration and the resolved
environment (sub-clients receive these same values). -/
structure AgeKeyClient where
  config : AgeKeyConfig
  environment : Environment

/-- What the `AgeKey` constructor can throw.  The spec's §7 taxonomy groups
both variants under the Configuration-error kind: `invalidRequest` models the
`InvalidRequestError` for a missing client id / redirect URI, and
`environmentMismatch` the plain `Error` thrown by
`validateCredentialEnvironments` for a credential tag mismatch. -/
inductive ConstructError where
  | invalidRequest (e : AgeKeyError)
  | environmentMismatch (message : String)
deriving DecidableEq

/-- The `AgeKey` constructor: validate required fields, then (for a truthy
secret) validate credential environments, and only then resolve the
environment.  An error result contains no resolved environment: resolution
happens strictly after validation. -/
def AgeKey.construct (config : AgeKeyConfig) : Except ConstructError AgeKeyClient :=
  if config.clientId == "" then
    .error (.invalidRequest (InvalidRequestError "clientId is required"))
  else if config.redirectUri == "" then
    .error (.invalidRequest (InvalidRequestError "redirectUri is required"))
  else
    match (if jsTruthy config.clientSecret then
            validateCredentialEnvironments config.clientId (config.clientSecret.getD "")
          else .ok ()) with
    | .error message => .error (.environmentMismatch message)
    | .ok _ =>
      .ok { config := config,
            environment := getEnvironment config.clientId config.apiBaseUrl }

/-! ## Shared lemmas -/

/-- A bitwise OR of naturals vanishes exactly when both sides do. -/
lemma lor_eq_zero_iff (a b : Nat) : a ||| b = 0 ↔ a = 0 ∧ b = 0 := by
  constructor
  · intro h
    have hf : ∀ i, (a ||| b).testBit i = false := by
      intro i; rw [h]; exact Nat.zero_testBit i
    constructor
    · apply Nat.zero_of_testBit_eq_false
      intro i
      have hb := hf i
      rw [Nat.testBit_lor] at hb
      exact (Bool.or_eq_false_iff.mp hb).1
    · apply Nat.zero_of_testBit_eq_false
      intro i
      have hb := hf i
      rw [Nat.testBit_lor] at hb
      exact (Bool.or_eq_false_iff.mp hb).2
  · rintro ⟨rfl, rfl⟩; rfl

/-- An OR-accumulating fold vanishes exactly when the accumulator and every
element vanish. -/
lemma foldl_lor_eq_zero (l : List Nat) : ∀ a : Nat,
    (l.foldl (fun acc x => acc ||| x) a = 0 ↔ a = 0 ∧ ∀ x ∈ l, x = 0) := by
  induction l with
  | nil => intro a; simp
  | cons x xs ih =>
    intro a
    rw [List.foldl_cons, ih (a ||| x), lor_eq_zero_iff]
    constructor
    · rintro ⟨⟨ha, hx⟩, hall⟩
      exact ⟨ha, by intro y hy; rcases List.mem_cons.mp hy with rfl | hy; exact hx; exact hall y hy⟩
    · rintro ⟨ha, hall⟩
      exact ⟨⟨ha, hall x (List.mem_cons_self x xs)⟩, fun y hy => hall y (List.mem_cons_of_mem x hy)⟩

/-- Character codes coincide exactly when the characters do. -/
lemma char_xor_eq_zero (a b : Char) : a.toNat ^^^ b.toNat = 0 ↔ a = b := by
  rw [Nat.xor_eq_zero]
  constructor
  · intro h; exact Char.ext (UInt32.ext h)
  · intro h; rw [h]

/-- For equal-length character lists, all pairwise code XORs vanish exactly
when the lists are equal. -/
lemma zipWith_xor_all_zero : ∀ (r e : List Char), r.length = e.length →
    ((∀ x ∈ List.zipWith (fun a b => a.toNat ^^^ b.toNat) r e, x = 0) ↔ r = e) := by
  intro r
  induction r with
  | nil =>
    intro e h
    cases e with
    | nil => simp
    | cons b bs => simp at h
  | cons a as ih =>
    intro e h
    cases e with
    | nil => simp at h
    | cons b bs =>
      have hlen : as.length = bs.length := by simpa using h
      rw [List.zipWith_cons_cons]
      constructor
      · intro hall
        have h1 : a.toNat ^^^ b.toNat = 0 := hall _ (List.mem_cons_self _ _)
        have h2 : as = bs := (ih bs hlen).mp fun x hx => hall x (List.mem_cons_of_mem _ hx)
        rw [(char_xor_eq_zero a b).mp h1, h2]
      · intro heq
        obtain ⟨rfl, rfl⟩ : a = b ∧ as = bs := by
          injection heq with h1 h2
          exact ⟨h1, h2⟩
        intro x hx
        rcases List.mem_cons.mp hx with rfl | hx
        · exact Nat.xor_self _
        · exact (ih as rfl).mpr rfl x hx

/-- Characterization of `validateState`: it accepts exactly the equal
non-empty pairs. -/
lemma validateState_true_iff (r e : String) :
    validateState r e = true ↔ r ≠ "" ∧ r = e := by
  unfold validateState
  by_cases hr : r = ""
  · subst hr
    simp
  · by_cases he : e = ""
    · subst he
      simp [hr]
    · have hcond : (r == "" || e == "") = false := by
        simp [hr, he]
      rw [if_neg (by simp [hr, he])]
      by_cases hlen : r.length = e.length
      · rw [if_neg (by simp [hlen])]
        have hdl : r.data.length = e.data.length := hlen
        constructor
        · intro h
          have h0 := (foldl_lor_eq_zero _ 0).mp (by exact beq_iff_eq.mp h)
          have := (zipWith_xor_all_zero r.data e.data hdl).mp h0.2
          exact ⟨hr, String.ext this⟩
        · rintro ⟨-, rfl⟩
          apply beq_iff_eq.mpr
          apply (foldl_lor_eq_zero _ 0).mpr
          exact ⟨rfl, (zipWith_xor_all_zero r.data r.data rfl).mpr rfl⟩
      · rw [if_pos (by simp [hlen])]
        constructor
        · intro h
          exact absurd h (by decide)
        · rintro ⟨-, rfl⟩
          exact absurd rfl hlen

/-! ## Claims about `validateState` (C3) -/

/-- C3 counterexample: the empty strings are equal and of equal length, yet
`validateState` returns `false` for them (the JavaScript falsy check
`!received || !expected` fires before the comparison). -/
theorem validateState_empty_pair_false : validateState "" "" = false := by decide

/-- C3 (amended): `validateState` returns `true` for equal non-empty strings,
`false` for equal-length strings differing at some position, `false` when the
lengths differ, and `false` whenever either string is empty. -/
theorem validateState_spec (received expected : String) :
    (received = expected → received ≠ "" → validateState received expected = true)
    ∧ (received.length = expected.length → received ≠ expected →
        validateState received expected = false)
    ∧ (received.length ≠ expected.length → validateState received expected = false)
    ∧ (received = "" ∨ expected = "" → validateState received expected = false) := by
  refine ⟨?_, ?_, ?_, ?_⟩
  · rintro rfl hne
    exact (validateState_true_iff received received).mpr ⟨hne, rfl⟩
  · intro _ hne
    cases hval : validateState received expected with
    | false => rfl
    | true =>
      exact absurd ((validateState_true_iff received expected).mp hval).2 hne
  · intro hlen
    cases hval : validateState received expected with
    | false => rfl
    | true =>
      obtain ⟨-, rfl⟩ := (validateState_true_iff received expected).mp hval
      exact absurd rfl hlen
  · intro hemp
    cases hval : validateState received expected with
    | false => rfl
    | true =>
      obtain ⟨hne, rfl⟩ := (validateState_true_iff received expected).mp hval
      rcases hemp with h | h
      · exact absurd h hne
      · exact absurd h hne

/-- Witness for `validateState_spec` at concrete inputs, discharging each
hypothesis. -/
theorem validateState_spec_witness :
    validateState "abc" "abc" = true ∧ validateState "abc" "abd" = false
    ∧ validateState "ab" "abc" = false ∧ validateState "" "x" = false :=
  ⟨(validateState_spec "abc" "abc").1 rfl (by decide),
   (validateState_spec "abc" "abd").2.1 (by decide) (by decide),
   (validateState_spec "ab" "abc").2.2.1 (by decide),
   (validateState_spec "" "x").2.2.2 (Or.inl rfl)⟩

/-! ## Claims about callback error classification (C4) -/

/-- C4: a callback whose query carries `error=access_denied` and
`error_description=User+cancelled` (the `+` decoding to a space) makes the
Use-flow `handleCallback` raise the Access-denied kind carrying description
"User cancelled" — before any state or token inspection, hence for every
validation pair, clock reading and decoding collaborator — while the
Create-flow `handleCallback` returns the failure record without raising. -/
theorem handleCallback_access_denied (url : String)
    (he : paramsGet (parseQuery url) "error" = some "access_denied")
    (hd : paramsGet (parseQuery url) "error_description" = some "User cancelled") :
    (∀ (atob : String → Option String) (jsonParse : String → Option Json)
      (now : Int) (validation : CallbackValidationParams),
      UseAgeKeyClient.handleCallback atob jsonParse now url validation
        = .error (AccessDeniedError (some "User cancelled")))
    ∧ CreateAgeKeyClient.handleCallback url
        = { success := false, error := some "access_denied",
            errorDescription := some "User cancelled" } := by
  constructor
  · intro atob jsonParse now validation
    unfold UseAgeKeyClient.handleCallback
    unfold getTruthy
    rw [he, hd]
    simp [optFalsy, mapOidcError, jsOrD]
  · unfold CreateAgeKeyClient.handleCallback
    unfold getTruthy
    rw [he, hd]
    simp [optFalsy]

/-- Witness for `handleCallback_access_denied` at the concrete callback URL
of the specification. -/
theorem handleCallback_access_denied_witness :
    UseAgeKeyClient.handleCallback (fun _ => none) (fun _ => none) 0
      "https://example.com/callback?error=access_denied&error_description=User+cancelled"
      { state := "s", nonce := "n" }
      = .error (AccessDeniedError (some "User cancelled"))
    ∧ CreateAgeKeyClient.handleCallback
      "https://example.com/callback?error=access_denied&error_description=User+cancelled"
      = { success := false, error := some "access_denied",
          errorDescription := some "User cancelled" } :=
  ⟨(handleCallback_access_denied
      "https://example.com/callback?error=access_denied&error_description=User+cancelled"
      rfl rfl).1 _ _ _ _,
   (handleCallback_access_denied
      "https://example.com/callback?error=access_denied&error_description=User+cancelled"
      rfl rfl).2⟩

/-! ## Claims about missing callback state (C10) -/

/-- C10: on an error-free callback, an entirely absent `state` parameter makes
the Use-flow `handleCallback` raise the State-mismatch kind — the identical
error value raised for a present-but-non-matching state — before any token
inspection (the conclusion holds for every decoding collaborator and clock). -/
theorem handleCallback_state_absent (url : String)
    (atob : String → Option String) (jsonParse : String → Option Json)
    (now : Int) (validation : CallbackValidationParams)
    (hne : getTruthy (parseQuery url) "error" = none) :
    (paramsGet (parseQuery url) "state" = none →
      UseAgeKeyClient.handleCallback atob jsonParse now url validation
        = .error (StateMismatchError none))
    ∧ (∀ s, paramsGet (parseQuery url) "state" = some s →
        validateState s validation.state = false →
        UseAgeKeyClient.handleCallback atob jsonParse now url validation
          = .error (StateMismatchError none)) := by
  constructor
  · intro habs
    unfold UseAgeKeyClient.handleCallback
    rw [hne, habs]
  · intro s hs hval
    unfold UseAgeKeyClient.handleCallback
    rw [hne, hs]
    by_cases hempty : s = ""
    · simp [hempty]
    · simp [hempty, hval]

/-- Witness for `handleCallback_state_absent` at a concrete error-free
callback without a `state` parameter, and one with a wrong state. -/
theorem handleCallback_state_absent_witness :
    UseAgeKeyClient.handleCallback (fun _ => none) (fun _ => none) 0
      "https://example.com/callback?id_token=abc" { state := "expected", nonce := "n" }
      = .error (StateMismatchError none)
    ∧ UseAgeKeyClient.handleCallback (fun _ => none) (fun _ => none) 0
      "https://example.com/callback?id_token=abc&state=wrong" { state := "expected", nonce := "n" }
      = .error (StateMismatchError none) :=
  ⟨(handleCallback_state_absent "https://example.com/callback?id_token=abc"
      (fun _ => none) (fun _ => none) 0 { state := "expected", nonce := "n" } rfl).1 rfl,
   (handleCallback_state_absent "https://example.com/callback?id_token=abc&state=wrong"
      (fun _ => none) (fun _ => none) 0 { state := "expected", nonce := "n" } rfl).2
      "wrong" rfl (by decide)⟩

/-! ## Claims about token expiration (C5) -/

/-- C5: a decoded payload is judged expired exactly when the clock reading in
seconds is at least the `exp` claim, or no integer `exp` claim is present;
and on a callback whose token decodes to a payload with `exp` one hour in the
past, the Use-flow `handleCallback` raises the Invalid-token kind with
message "ID token has expired" even though state and nonce match exactly. -/
theorem isTokenExpired_spec :
    (∀ (now : Int) (payload : Json),
      isTokenExpired now payload = true ↔
        ((∃ e : Int, jsonLookup payload "exp" = some (Json.num e) ∧ e ≤ now)
         ∨ (∀ e : Int, jsonLookup payload "exp" ≠ some (Json.num e))))
    ∧ (∀ (atob : String → Option String) (jsonParse : String → Option Json)
        (now : Int) (url : String) (validation : CallbackValidationParams)
        (tok : String) (payload : Json),
        getTruthy (parseQuery url) "error" = none →
        paramsGet (parseQuery url) "state" = some validation.state →
        validation.state ≠ "" →
        paramsGet (parseQuery url) "id_token" = some tok →
        tok ≠ "" →
        decodeJwtPayload atob jsonParse tok = some payload →
        extractNonce payload = some validation.nonce →
        validation.nonce ≠ "" →
        jsonLookup payload "exp" = some (Json.num (now - 3600)) →
        UseAgeKeyClient.handleCallback atob jsonParse now url validation
          = .error (InvalidTokenError (some "ID token has expired"))) := by
  constructor
  · intro now payload
    unfold isTokenExpired
    cases hexp : jsonLookup payload "exp" with
    | none =>
      simp only [hexp]
      constructor
      · intro _
        right
        intro e
        simp
      · intro _
        trivial
    | some v =>
      cases v with
      | num e =>
        simp only [hexp, decide_eq_true_eq]
        constructor
        · intro h
          left
          exact ⟨e, rfl, h⟩
        · rintro (⟨e', he', hle⟩ | hno)
          · injection he' with h
            injection h with h
            omega
          · exact absurd rfl (hno e)
      | null => simp only [hexp]; exact ⟨fun _ => Or.inr (by simp), fun _ => trivial⟩
      | bool b => simp only [hexp]; exact ⟨fun _ => Or.inr (by simp), fun _ => trivial⟩
      | str s => simp only [hexp]; exact ⟨fun _ => Or.inr (by simp), fun _ => trivial⟩
      | arr l => simp only [hexp]; exact ⟨fun _ => Or.inr (by simp), fun _ => trivial⟩
      | obj f => simp only [hexp]; exact ⟨fun _ => Or.inr (by simp), fun _ => trivial⟩
  · intro atob jsonParse now url validation tok payload
    intro herr hstate hsne htok htne hdec hnonce hnne hexp
    unfold UseAgeKeyClient.handleCallback
    rw [herr, hstate, htok]
    have hvs : validateState validation.state validation.state = true :=
      (validateState_true_iff _ _).mpr ⟨hsne, rfl⟩
    have hvn : validateState validation.nonce validation.nonce = true :=
      (validateState_true_iff _ _).mpr ⟨hnne, rfl⟩
    have hexpired : isTokenExpired now payload = true := by
      unfold isTokenExpired
      rw [hexp]
      simp only [decide_eq_true_eq]
      omega
    simp [hsne, hvs, htne, hdec, hnonce, hnne, hvn, hexpired]

/-- Witness for `isTokenExpired_spec` at concrete inputs: the expiration
characterization at a concrete payload, and the full expired-token callback
at a concrete URL, clock reading and decoding collaborators. -/
theorem isTokenExpired_spec_witness :
    isTokenExpired 100 (Json.obj [("exp", Json.num 100)]) = true
    ∧ UseAgeKeyClient.handleCallback (fun _ => some "b64")
        (fun _ => some (Json.obj [("nonce", Json.str "n1"), ("exp", Json.num 50),
          ("age_thresholds", Json.obj [("18", Json.bool true)])]))
        3650 "https://x/cb?id_token=a.b.c&state=s1" { state := "s1", nonce := "n1" }
        = .error (InvalidTokenError (some "ID token has expired")) :=
  ⟨(isTokenExpired_spec.1 100 (Json.obj [("exp", Json.num 100)])).mpr
      (Or.inl ⟨100, rfl, by omega⟩),
   isTokenExpired_spec.2 (fun _ => some "b64")
      (fun _ => some (Json.obj [("nonce", Json.str "n1"), ("exp", Json.num 50),
        ("age_thresholds", Json.obj [("18", Json.bool true)])]))
      3650 "https://x/cb?id_token=a.b.c&state=s1" { state := "s1", nonce := "n1" }
      "a.b.c"
      (Json.obj [("nonce", Json.str "n1"), ("exp", Json.num 50),
        ("age_thresholds", Json.obj [("18", Json.bool true)])])
      rfl rfl (by decide) rfl (by decide) rfl rfl (by decide) rfl⟩

/-! ## Claims about `decodeJwtPayload` (C6) -/

/-- C6: `decodeJwtPayload` is a total function (it never raises): it yields
no payload whenever the token does not split into exactly three dot-separated
segments, whenever the middle segment is empty, and whenever the base64url
decoding or the JSON parsing collaborator fails on the translated middle
segment; when all of these succeed it returns exactly the parsed payload. -/
theorem decodeJwtPayload_spec (atob : String → Option String)
    (jsonParse : String → Option Json) (token : String) :
    ((jsSplit token '.').length ≠ 3 →
      decodeJwtPayload atob jsonParse token = none)
    ∧ ((jsSplit token '.').length = 3 → (jsSplit token '.')[1]! = "" →
      decodeJwtPayload atob jsonParse token = none)
    ∧ ((jsSplit token '.').length = 3 → (jsSplit token '.')[1]! ≠ "" →
      atob (jsReplaceChar (jsReplaceChar ((jsSplit token '.')[1]!) '-' '+') '_' '/') = none →
      decodeJwtPayload atob jsonParse token = none)
    ∧ (∀ s, (jsSplit token '.').length = 3 → (jsSplit token '.')[1]! ≠ "" →
      atob (jsReplaceChar (jsReplaceChar ((jsSplit token '.')[1]!) '-' '+') '_' '/') = some s →
      jsonParse s = none →
      decodeJwtPayload atob jsonParse token = none)
    ∧ (∀ s j, (jsSplit token '.').length = 3 → (jsSplit token '.')[1]! ≠ "" →
      atob (jsReplaceChar (jsReplaceChar ((jsSplit token '.')[1]!) '-' '+') '_' '/') = some s →
      jsonParse s = some j →
      decodeJwtPayload atob jsonParse token = some j) := by
  refine ⟨?_, ?_, ?_, ?_, ?_⟩
  · intro hlen
    unfold decodeJwtPayload
    simp [hlen]
  · intro hlen hmid
    unfold decodeJwtPayload
    simp [hlen, hmid]
  · intro hlen hmid hatob
    unfold decodeJwtPayload
    simp [hlen, hmid, hatob]
  · intro s hlen hmid hatob hparse
    unfold decodeJwtPayload
    simp [hlen, hmid, hatob, hparse]
  · intro s j hlen hmid hatob hparse
    unfold decodeJwtPayload
    simp [hlen, hmid, hatob, hparse]

/-- Witness for `decodeJwtPayload_spec` at concrete tokens and collaborators,
covering a malformed token and a fully successful decode. -/
theorem decodeJwtPayload_spec_witness :
    decodeJwtPayload (fun _ => some "{}") (fun _ => some (Json.obj [])) "a.b" = none
    ∧ decodeJwtPayload (fun _ => some "{}") (fun _ => some (Json.obj [])) "a..c" = none
    ∧ decodeJwtPayload (fun _ => none) (fun _ => some (Json.obj [])) "a.b.c" = none
    ∧ decodeJwtPayload (fun _ => some "{}") (fun _ => none) "a.b.c" = none
    ∧ decodeJwtPayload (fun _ => some "{}") (fun _ => some (Json.obj [])) "a.b.c"
        = some (Json.obj []) :=
  ⟨(decodeJwtPayload_spec (fun _ => some "{}") (fun _ => some (Json.obj [])) "a.b").1
      (by decide),
   (decodeJwtPayload_spec (fun _ => some "{}") (fun _ => some (Json.obj [])) "a..c").2.1
      (by decide) (by decide),
   (decodeJwtPayload_spec (fun _ => none) (fun _ => some (Json.obj [])) "a.b.c").2.2.1
      (by decide) (by decide) rfl,
   (decodeJwtPayload_spec (fun _ => some "{}") (fun _ => none) "a.b.c").2.2.2.1
      "{}" (by decide) (by decide) rfl rfl,
   (decodeJwtPayload_spec (fun _ => some "{}") (fun _ => some (Json.obj [])) "a.b.c").2.2.2.2
      "{}" (Json.obj []) (by decide) (by decide) rfl rfl⟩

/-! ## Claims about the serialized Use-flow claims object (C7) -/

/-- Every character emitted by the fuelled digit renderer is a decimal digit
character. -/
lemma natDigitsAux_chars (fuel : Nat) : ∀ (n : Nat) (c : Char),
    c ∈ natDigitsAux fuel n → ∃ k, k < 10 ∧ c = digitChar k := by
  induction fuel with
  | zero => intro n c hc; simp [natDigitsAux] at hc
  | succ f ih =>
    intro n c hc
    unfold natDigitsAux at hc
    by_cases hn : n < 10
    · rw [if_pos hn] at hc
      simp at hc
      exact ⟨n, hn, hc⟩
    · rw [if_neg hn] at hc
      rcases List.mem_append.mp hc with hmem | hmem
      · exact ih (n / 10) c hmem
      · simp at hmem
        exact ⟨n % 10, Nat.mod_lt n (by omega), hmem⟩

/-- Decimal digit characters are never the letter `T`. -/
lemma digitChar_ne_T (k : Nat) (hk : k < 10) : digitChar k ≠ 'T' := by
  interval_cases k <;> decide

/-- No character of a zero-padded decimal rendering is the letter `T`. -/
lemma padTo_chars_ne_T (w n : Nat) : ∀ c ∈ padTo w n, c ≠ 'T' := by
  intro c hc
  rcases List.mem_append.mp hc with hmem | hmem
  · rw [List.eq_of_mem_replicate hmem]
    decide
  · obtain ⟨k, hk, rfl⟩ := natDigitsAux_chars (n + 1) n c hmem
    exact digitChar_ne_T k hk

/-- No character of the date part `YYYY-MM-DD` is the letter `T`. -/
lemma isoDatePart_chars_ne_T (d : DateUTC) : ∀ c ∈ (isoDatePart d).data, c ≠ 'T' := by
  intro c hc
  have hc' : c ∈ padTo 4 d.year ++ ['-'] ++ padTo 2 d.month ++ ['-'] ++ padTo 2 d.day := hc
  rcases List.mem_append.mp hc' with h1 | h1
  · rcases List.mem_append.mp h1 with h2 | h2
    · rcases List.mem_append.mp h2 with h3 | h3
      · rcases List.mem_append.mp h3 with h4 | h4
        · exact padTo_chars_ne_T 4 d.year c h4
        · rw [List.mem_singleton.mp h4]; decide
      · exact padTo_chars_ne_T 2 d.month c h3
    · rw [List.mem_singleton.mp h2]; decide
  · exact padTo_chars_ne_T 2 d.day c h1

/-- `takeWhile` up to the first separator recovers a separator-free prefix. -/
lemma takeWhile_prefix_sep (sep : Char) : ∀ (a b : List Char), (∀ c ∈ a, c ≠ sep) →
    (a ++ sep :: b).takeWhile (fun c => c ≠ sep) = a := by
  intro a
  induction a with
  | nil =>
    intro b _
    simp [List.takeWhile]
  | cons x xs ih =>
    intro b hne
    have hx : x ≠ sep := hne x (List.mem_cons_self _ _)
    rw [List.cons_append, List.takeWhile_cons, decide_eq_true hx]
    simp only [if_true]
    rw [ih b fun c hc => hne c (List.mem_cons_of_mem _ hc)]

/-- `toISOString(d).split("T")[0]` is exactly the date-only rendering
`YYYY-MM-DD`: the time-of-day components are discarded. -/
lemma splitHead_toISOString (d : DateUTC) :
    splitHead (toISOString d) 'T' = isoDatePart d := by
  unfold splitHead toISOString
  apply String.ext
  show (((isoDatePart d ++ "T" ++ isoTimePart d).data).takeWhile fun c => c ≠ 'T') = _
  have hdata : (isoDatePart d ++ "T" ++ isoTimePart d).data
      = (isoDatePart d).data ++ 'T' :: (isoTimePart d).data := by
    simp [String.data_append]
  rw [hdata]
  exact takeWhile_prefix_sep 'T' (isoDatePart d).data (isoTimePart d).data
    (isoDatePart_chars_ne_T d)

/-- C7: in the serialized Use-flow claims object, `age_thresholds` equals the
input array in its exact order; no field is ever serialized as JSON `null`;
optional inputs that were not supplied produce no field at all; and a supplied
`verifiedAfter` instant is serialized as the date-only `YYYY-MM-DD` UTC
string, discarding all time-of-day components. -/
theorem buildUseClaims_spec (options : UseAgeKeyOptions) :
    (jsonLookup (buildUseClaims options) "age_thresholds"
       = some (Json.arr (options.ageThresholds.map Json.num)))
    ∧ (∀ k, jsonLookup (buildUseClaims options) k ≠ some Json.null)
    ∧ (options.allowedMethods = none →
        jsonLookup (buildUseClaims options) "allowed_methods" = none)
    ∧ (options.verifiedAfter = none →
        jsonLookup (buildUseClaims options) "verified_after" = none)
    ∧ (options.overrides = none →
        jsonLookup (buildUseClaims options) "overrides" = none)
    ∧ (options.provenance = none →
        jsonLookup (buildUseClaims options) "provenance" = none)
    ∧ (∀ d, options.verifiedAfter = some d →
        jsonLookup (buildUseClaims options) "verified_after"
          = some (Json.str (isoDatePart d)))
    ∧ (∀ d, isoDatePart d
        = isoDatePart { year := d.year, month := d.month, day := d.day }) := by
  obtain ⟨ath, am, va, ec, ov, pv⟩ := options
  refine ⟨?_, ?_, ?_, ?_, ?_, ?_, ?_, ?_⟩
  · simp [buildUseClaims, jsonLookup, List.find?]
  · intro k h
    unfold buildUseClaims jsonLookup at h
    rcases Option.map_eq_some'.mp h with ⟨p, hfind, hv⟩
    have hmem := List.mem_of_find?_eq_some hfind
    clear hfind h
    cases am <;> cases va <;> cases ov <;> cases pv <;>
      simp only [] at hmem <;>
      (try split_ifs at hmem) <;>
      simp only [List.mem_append, List.mem_singleton, List.not_mem_nil, or_false,
        false_or] at hmem <;>
      (try casesm* _ ∨ _) <;>
      subst_vars <;>
      simp_all [overridesJson, provenanceJson, methodOverrideJson]
  · rintro rfl
    cases va <;> cases ov <;> cases pv <;>
      simp [buildUseClaims, jsonLookup, List.find?]
  · rintro rfl
    cases am <;> cases ov <;> cases pv <;>
      simp [buildUseClaims, jsonLookup, List.find?]
  · rintro rfl
    cases am <;> cases va <;> cases pv <;>
      simp [buildUseClaims, jsonLookup, List.find?]
  · rintro rfl
    cases am <;> cases va <;> cases ov <;>
      simp [buildUseClaims, jsonLookup, List.find?]
  · rintro d rfl
    cases am <;> cases ov <;> cases pv <;>
      simp [buildUseClaims, jsonLookup, List.find?, splitHead_toISOString]
  · intro d
    rfl

/-- Witness for `buildUseClaims_spec` at a concrete options value, evaluating
the serialized claims for `ageThresholds=[13,18,21]` with a supplied instant
carrying time-of-day components. -/
theorem buildUseClaims_spec_witness :
    jsonLookup (buildUseClaims { ageThresholds := [13, 18, 21], verifiedAfter := some ⟨2024, 1, 15, 12, 30, 5, 250⟩ })
      "age_thresholds" = some (Json.arr [Json.num 13, Json.num 18, Json.num 21])
    ∧ jsonLookup (buildUseClaims { ageThresholds := [13, 18, 21], verifiedAfter := some ⟨2024, 1, 15, 12, 30, 5, 250⟩ })
      "allowed_methods" = none
    ∧ jsonLookup (buildUseClaims { ageThresholds := [13, 18, 21], verifiedAfter := some ⟨2024, 1, 15, 12, 30, 5, 250⟩ })
      "verified_after" = some (Json.str "2024-01-15") :=
  ⟨(buildUseClaims_spec _).1,
   (buildUseClaims_spec _).2.2.1 rfl,
   ((buildUseClaims_spec { ageThresholds := [13, 18, 21], verifiedAfter := some ⟨2024, 1, 15, 12, 30, 5, 250⟩ }).2.2.2.2.2.2.1
      ⟨2024, 1, 15, 12, 30, 5, 250⟩ rfl).trans (by rfl)⟩

/-! ## Claims about override validation (C2) -/

/-- C2 counterexample: `getAuthorizationUrl` performs no runtime validation
of the overrides mapping.  With an overrides entry for
`facial_age_estimation` carrying neither `min_age` nor `age_thresholds`, the
call completes normally (returning the injected state and nonce) and the
empty override object is serialized verbatim into the claims — no
Invalid-request error is raised at any point. -/
theorem facial_override_not_rejected :
    jsonLookup (buildUseClaims { ageThresholds := [18], overrides := some [("facial_age_estimation", {})] })
      "overrides" = some (Json.obj [("facial_age_estimation", Json.obj [])])
    ∧ (UseAgeKeyClient.getAuthorizationUrl ⟨true, "b", "u", "c", "p"⟩
        ⟨"ak_test_1", none, "https://app/cb", none⟩ "s1" "n1"
        { ageThresholds := [18], overrides := some [("facial_age_estimation", {})] }).state = "s1"
    ∧ (UseAgeKeyClient.getAuthorizationUrl ⟨true, "b", "u", "c", "p"⟩
        ⟨"ak_test_1", none, "https://app/cb", none⟩ "s1" "n1"
        { ageThresholds := [18], overrides := some [("facial_age_estimation", {})] }).nonce = "n1" :=
  ⟨rfl, rfl, rfl⟩

/-- C2 (amended): the Use-flow claims construction never validates overrides:
every supplied non-empty overrides mapping — including a facial-estimation
entry with neither `min_age` nor `age_thresholds` — is serialized into the
claims object unchanged, and `getAuthorizationUrl` returns a normal result
(the one-of constraint lives only in the static type system). -/
theorem overrides_passthrough (options : UseAgeKeyOptions)
    (ov : List (String × MethodOverride))
    (hov : options.overrides = some ov) (hne : ov ≠ [])
    (environment : Environment) (config : AgeKeyConfig) (state nonce : String) :
    jsonLookup (buildUseClaims options) "overrides" = some (overridesJson ov)
    ∧ (UseAgeKeyClient.getAuthorizationUrl environment config state nonce options).state
        = state
    ∧ (UseAgeKeyClient.getAuthorizationUrl environment config state nonce options).nonce
        = nonce := by
  obtain ⟨ath, am, va, ec, ov', pv⟩ := options
  simp only at hov
  subst hov
  refine ⟨?_, rfl, rfl⟩
  have hlen : ov.length > 0 := by
    cases ov with
    | nil => exact absurd rfl hne
    | cons x xs => simp
  cases am <;> cases va <;> cases pv <;>
    simp [buildUseClaims, jsonLookup, List.find?, hlen]

/-- Witness for `overrides_passthrough` at the concrete empty facial
override. -/
theorem overrides_passthrough_witness :
    jsonLookup (buildUseClaims { ageThresholds := [18], overrides := some [("facial_age_estimation", {})] })
      "overrides" = some (overridesJson [("facial_age_estimation", {})])
    ∧ (UseAgeKeyClient.getAuthorizationUrl ⟨true, "b", "u", "c", "p"⟩
        ⟨"ak_test_1", none, "https://app/cb", none⟩ "s1" "n1"
        { ageThresholds := [18], overrides := some [("facial_age_estimation", {})] }).state = "s1"
    ∧ (UseAgeKeyClient.getAuthorizationUrl ⟨true, "b", "u", "c", "p"⟩
        ⟨"ak_test_1", none, "https://app/cb", none⟩ "s1" "n1"
        { ageThresholds := [18], overrides := some [("facial_age_estimation", {})] }).nonce = "n1" :=
  overrides_passthrough { ageThresholds := [18], overrides := some [("facial_age_estimation", {})] }
    [("facial_age_estimation", {})] rfl (List.cons_ne_nil _ _) ⟨true, "b", "u", "c", "p"⟩
    ⟨"ak_test_1", none, "https://app/cb", none⟩ "s1" "n1"

/-! ## Claims about construction-time credential validation (C8) -/

/-- `leadsWith` characterized as prefix decomposition. -/
lemma leadsWith_iff : ∀ (p l : List Char), leadsWith p l = true ↔ ∃ t, l = p ++ t := by
  intro p
  induction p with
  | nil =>
    intro l
    simp [leadsWith]
  | cons x xs ih =>
    intro l
    cases l with
    | nil =>
      simp [leadsWith]
    | cons c cs =>
      simp only [leadsWith, Bool.and_eq_true, beq_iff_eq, ih cs, List.cons_append,
        List.cons.injEq]
      constructor
      · rintro ⟨rfl, t, rfl⟩
        exact ⟨t, rfl, rfl⟩
      · rintro ⟨t, rfl, rfl⟩
        exact ⟨rfl, t, rfl⟩

/-- A string starting with a non-empty pattern is non-empty. -/
lemma jsStartsWith_ne_empty (s p : String) (hp : p.data ≠ [])
    (h : jsStartsWith s p = true) : s ≠ "" := by
  obtain ⟨t, ht⟩ := (leadsWith_iff p.data s.data).mp h
  intro hs
  subst hs
  rcases hd : p.data with _ | ⟨c, cs⟩
  · exact hp hd
  · rw [hd] at ht
    simp at ht

/-- A secret starting with the live tag does not carry the test tag. -/
lemma live_secret_not_test (secret : String)
    (h : jsStartsWith secret prefixLiveSecret = true) :
    isTestSecret secret = false := by
  cases htest : isTestSecret secret with
  | false => rfl
  | true =>
    obtain ⟨t1, ht1⟩ := (leadsWith_iff _ _).mp htest
    obtain ⟨t2, ht2⟩ := (leadsWith_iff _ _).mp h
    rw [ht1] at ht2
    have hlen : (prefixTestSecret.data).length = (prefixLiveSecret.data).length := by decide
    have := (List.append_inj ht2 hlen).1
    exact absurd this (by decide)

/-- C8: constructing the client with a test-tagged client id and a live-tagged
client secret fails at construction time with the environment-mismatch error
(the Configuration-error kind of the taxonomy); the error result carries no
resolved environment — endpoint resolution happens only on the success path. -/
theorem construct_env_mismatch (cid secret ruri : String) (api : Option String)
    (h1 : jsStartsWith cid prefixTestClientId = true)
    (h2 : jsStartsWith secret prefixLiveSecret = true)
    (h3 : ruri ≠ "") :
    AgeKey.construct { clientId := cid, clientSecret := some secret, redirectUri := ruri, apiBaseUrl := api }
      = .error (.environmentMismatch ("Environment mismatch: clientId is test but clientSecret is live. " ++
          "Both must be from the same environment.")) := by
  have hcid : cid ≠ "" := jsStartsWith_ne_empty cid prefixTestClientId (by decide) h1
  have hsec : secret ≠ "" := jsStartsWith_ne_empty secret prefixLiveSecret (by decide) h2
  have htag : hasSecretEnvTag secret = true := by
    unfold hasSecretEnvTag
    rw [h2]
    simp
  have htest : isTestSecret secret = false := live_secret_not_test secret h2
  unfold AgeKey.construct
  simp only [hcid, hsec, jsTruthy]
  rw [if_neg (by simp [hcid]), if_neg (by simp [h3])]
  have hval : validateCredentialEnvironments cid secret
      = .error ("Environment mismatch: clientId is test but clientSecret is live. " ++
          "Both must be from the same environment.") := by
    unfold validateCredentialEnvironments
    rw [htag]
    simp only [Bool.not_true, Bool.false_eq_true, if_false]
    unfold isTestCredential
    rw [h1, htest]
    rfl
  simp [hsec, hval]

/-- Witness for `construct_env_mismatch` at the concrete credentials of the
specification. -/
theorem construct_env_mismatch_witness :
    AgeKey.construct { clientId := "ak_test_X", clientSecret := some "sk_live_Y", redirectUri := "https://myapp.com/callback", apiBaseUrl := none }
      = .error (.environmentMismatch ("Environment mismatch: clientId is test but clientSecret is live. " ++
          "Both must be from the same environment.")) :=
  construct_env_mismatch "ak_test_X" "sk_live_Y" "https://myapp.com/callback" none
    (by decide) (by decide) (by decide)

/-! ## Claims about the PAR exchange (C9, C1) -/

/-- C9 counterexample: a PAR response that states `expires_in: 0` does not
have that stated value returned — the JavaScript `data.expires_in || 90`
treats `0` as falsy, so the default `90` is returned instead. -/
theorem par_expires_in_zero_defaulted :
    CreateAgeKeyClient.pushAuthorizationRequest
        ⟨"ak_test_1", some "sk_test_2", "https://app/cb", none⟩
        (.success ⟨true, 200, ⟨some "urn:x", some 0, none, none⟩⟩)
      = .ok { requestUri := "urn:x", expiresIn := 90 }
    ∧ (90 : Int) ≠ 0 :=
  ⟨rfl, by decide⟩

/-- C9 (amended): for every successful PAR response with a truthy
`request_uri` and no truthy error, `pushAuthorizationRequest` succeeds,
returning the stated `expires_in` when it is present and non-zero, and the
default of 90 seconds when it is absent or zero (the falsy default). -/
theorem par_success_spec (config : AgeKeyConfig) (secret : String)
    (response : ParResponse) (u : String)
    (hsec : config.clientSecret = some secret) (hsecne : secret ≠ "")
    (hok : response.ok = true)
    (herr : jsTruthy response.data.error = false)
    (huri : response.data.request_uri = some u) (hune : u ≠ "") :
    CreateAgeKeyClient.pushAuthorizationRequest config (.success response)
      = .ok { requestUri := u,
              expiresIn := match response.data.expires_in with
                           | some n => if n = 0 then 90 else n
                           | none => 90 } := by
  have hu : jsTruthy (some u) = true := by simp [jsTruthy, hune]
  unfold CreateAgeKeyClient.pushAuthorizationRequest
  rw [hsec, if_neg (by simp [jsTruthy, hsecne])]
  unfold CreateAgeKeyClient.parTryBlock CreateAgeKeyClient.parCatch
  cases hexp : response.data.expires_in with
  | none =>
    simp [hok, herr, huri, hexp, hu, jsTruthyInt, DEFAULTS_parExpiry]
  | some n =>
    by_cases hn : n = 0
    · subst hn
      simp [hok, herr, huri, hexp, hu, jsTruthyInt, DEFAULTS_parExpiry]
    · simp [hok, herr, huri, hexp, hu, jsTruthyInt, hn]

/-- Witness for `par_success_spec` at concrete configurations and responses:
a stated non-zero expiry of 90 is returned as-is, and an absent expiry
defaults to 90. -/
theorem par_success_spec_witness :
    CreateAgeKeyClient.pushAuthorizationRequest
        ⟨"ak_test_1", some "sk_test_2", "https://app/cb", none⟩
        (.success ⟨true, 200, ⟨some "urn:ietf:params:oauth:request_uri:abc", some 90, none, none⟩⟩)
      = .ok { requestUri := "urn:ietf:params:oauth:request_uri:abc", expiresIn := 90 }
    ∧ CreateAgeKeyClient.pushAuthorizationRequest
        ⟨"ak_test_1", some "sk_test_2", "https://app/cb", none⟩
        (.success ⟨true, 200, ⟨some "urn:ietf:params:oauth:request_uri:abc", none, none, none⟩⟩)
      = .ok { requestUri := "urn:ietf:params:oauth:request_uri:abc", expiresIn := 90 } :=
  ⟨(par_success_spec ⟨"ak_test_1", some "sk_test_2", "https://app/cb", none⟩ "sk_test_2"
      ⟨true, 200, ⟨some "urn:ietf:params:oauth:request_uri:abc", some 90, none, none⟩⟩
      "urn:ietf:params:oauth:request_uri:abc" rfl (by decide) rfl rfl rfl (by decide)).trans
    (by rfl),
   (par_success_spec ⟨"ak_test_1", some "sk_test_2", "https://app/cb", none⟩ "sk_test_2"
      ⟨true, 200, ⟨some "urn:ietf:params:oauth:request_uri:abc", none, none, none⟩⟩
      "urn:ietf:params:oauth:request_uri:abc" rfl (by decide) rfl rfl rfl (by decide)).trans
    (by rfl)⟩

/-- C1 (code evaluation at the failing inputs): a PAR response lacking
`request_uri` (with no error field) does not surface the Server-error kind.
On an HTTP-successful response the thrown `ServerError` is caught by the
function's own `catch` and wrapped into a `NetworkError` — because
`error.name.includes("AgeKey")` is false for the subclass name
`"ServerError"` — contradicting the source's documented
`@throws ServerError`; and on a non-ok 401 response the code throws
`UnauthorizedClientError` (also wrapped), not Server-error, contradicting
"regardless of HTTP status". -/
theorem par_missing_request_uri_not_server_error :
    CreateAgeKeyClient.pushAuthorizationRequest
        ⟨"ak_test_1", some "sk_test_2", "https://app/cb", none⟩
        (.success ⟨true, 200, ⟨none, none, none, none⟩⟩)
      = .error (NetworkError (some "Failed to connect to AgeKey PAR endpoint")
          (some (.ak (ServerError (some "PAR response missing request_uri")))))
    ∧ CreateAgeKeyClient.pushAuthorizationRequest
        ⟨"ak_test_1", some "sk_test_2", "https://app/cb", none⟩
        (.success ⟨false, 401, ⟨none, none, none, none⟩⟩)
      = .error (NetworkError (some "Failed to connect to AgeKey PAR endpoint")
          (some (.ak (UnauthorizedClientError none))))
    ∧ (NetworkError (some "Failed to connect to AgeKey PAR endpoint")
        (some (.ak (ServerError (some "PAR response missing request_uri"))))).code
      ≠ AgeKeyErrorCode.server_error :=
  ⟨rfl, rfl, by decide⟩
